import Mathlib

/-!
Shallow embedding of `src/trl/dataset_processor.py`.

Datasets are modelled as Lean lists of records; records are structures whose
fields mirror the named fields the code reads and writes.  The external
tokenizer's `apply_chat_template` is an arbitrary function parameter, and its
`pad_token_id` / `eos_token_id` attributes are optional naturals.  Python
exceptions are modelled with `Except`; `logging.warn` side effects are modelled
as an explicit list of emitted warnings.  Python true division `/` is modelled
exactly over `ℚ` (its result here is an exact ratio of machine integers).
-/

/-- Python exceptions that the embedded code can raise. -/
inductive PyError
  | valueErrorEmptySeq
  | zeroDivisionError
  | notImplementedError
  deriving DecidableEq

/-- Warnings emitted through `logging.warn`. -/
inductive Warning
  | padEqualsEos
  | noConfigSkipFilter
  deriving DecidableEq

/-- Embeds the `DatasetConfig` dataclass with its default values. -/
structure DatasetConfig where
  max_token_length : Option Nat := none
  max_prompt_token_lenth : Option Nat := none
  batched : Bool := false
  load_from_cache_file : Bool := false
  num_proc : Option Nat := some 1
  ncols : Nat := 2
  deriving DecidableEq

/-- The slice of the external `PreTrainedTokenizer` interface the module reads
during construction: the pad and end-of-sequence token identifiers (either may
be absent, as in Python where the attribute can be `None`). -/
structure Tokenizer where
  pad_token_id : Option Nat
  eos_token_id : Option Nat
  deriving DecidableEq

/-- Embeds the `DatasetProcessor` object state: the tokenizer and the stored
configuration.  The configuration is optional because the base `filter`
defensively checks `self.config is None`. -/
structure DatasetProcessor where
  tokenizer : Tokenizer
  config : Option DatasetConfig
  deriving DecidableEq

/-- Embeds `DatasetProcessor.__init__`: stores the tokenizer and configuration
and emits the pad/EOS warning exactly when `pad_token_id == eos_token_id`
(in Python two `None`s also compare equal).  Construction never fails, so the
result type is a plain pair of the processor and the emitted warnings. -/
def DatasetProcessor.init (tokenizer : Tokenizer) (config : Option DatasetConfig) :
    DatasetProcessor × List Warning :=
  (⟨tokenizer, config⟩,
    if tokenizer.pad_token_id = tokenizer.eos_token_id then [Warning.padEqualsEos] else [])

/-- Embeds the base `DatasetProcessor.filter`: with no configuration it logs a
warning and returns the dataset unchanged; otherwise it raises
`NotImplementedError`. -/
def DatasetProcessor.filter {ρ : Type} (self : DatasetProcessor) (dataset : List ρ) :
    Except PyError (List Warning × List ρ) :=
  match self.config with
  | none => .ok ([Warning.noConfigSkipFilter], dataset)
  | some _ => .error .notImplementedError

/-- Embeds Python `max(...)` over a sequence of naturals: raises `ValueError`
on an empty sequence, otherwise folds `max` from the left as Python does. -/
def pyMax : List Nat → Except PyError Nat
  | [] => .error .valueErrorEmptySeq
  | x :: xs => .ok (xs.foldl Nat.max x)

/-- Embeds Python `min(...)` over a sequence of naturals: raises `ValueError`
on an empty sequence, otherwise folds `min` from the left. -/
def pyMin : List Nat → Except PyError Nat
  | [] => .error .valueErrorEmptySeq
  | x :: xs => .ok (xs.foldl Nat.min x)

/-- Embeds Python true division `a / b` on non-negative integers: raises
`ZeroDivisionError` when `b = 0`, otherwise returns the exact ratio in `ℚ`. -/
def pyTrueDiv (a b : Nat) : Except PyError ℚ :=
  if b = 0 then .error .zeroDivisionError else .ok ((a : ℚ) / (b : ℚ))

/-- One per-field entry of the statistics mapping built by
`get_token_length_stats`. -/
structure TokenLengthStatsEntry where
  max_token_length : Nat
  min_token_length : Nat
  mean_token_length : ℚ
  deriving DecidableEq

/-- Embeds the body of the `for key in features` loop of
`get_token_length_stats` for a single key: `dataset[key]` is the column of the
field values (extracted by the accessor `get`), and the three statistics are
computed in the order the Python dict display evaluates them — `max`, then
`min`, then the mean `sum(...) / len(dataset[key])` — so the first exception
raised is the one that propagates. -/
def statsForKey {ρ : Type} (get : ρ → String → List Nat) (dataset : List ρ)
    (key : String) : Except PyError TokenLengthStatsEntry :=
  let col := dataset.map (fun row => get row key)
  let lengths := col.map List.length
  match pyMax lengths with
  | .error e => .error e
  | .ok mx =>
    match pyMin lengths with
    | .error e => .error e
    | .ok mn =>
      match pyTrueDiv lengths.sum col.length with
      | .error e => .error e
      | .ok mean => .ok ⟨mx, mn, mean⟩

/-- Embeds `DatasetProcessor.get_token_length_stats`: iterates over the
requested features in order, associating each key with its statistics entry;
the first exception aborts the loop and propagates, as in Python. -/
def get_token_length_stats {ρ : Type} (get : ρ → String → List Nat)
    (dataset : List ρ) : List String → Except PyError (List (String × TokenLengthStatsEntry))
  | [] => .ok []
  | key :: rest =>
    match statsForKey get dataset key with
    | .error e => .error e
    | .ok s =>
      match get_token_length_stats get dataset rest with
      | .error e => .error e
      | .ok tail => .ok ((key, s) :: tail)

/-- A raw preference record before tokenization: `chosen` and `rejected` hold
structured message lists of an abstract message type `α`. -/
structure PreferenceRawRow (α : Type) where
  chosen : List α
  rejected : List α

/-- A preference record after tokenization: `prompt`, `chosen`, `rejected`
hold token-id sequences. -/
structure PreferenceTokRow where
  prompt : List Nat
  chosen : List Nat
  rejected : List Nat
  deriving DecidableEq

/-- A raw fine-tuning record before tokenization. -/
structure SFTRawRow (α : Type) where
  messages : List α

/-- A fine-tuning record after tokenization. -/
structure SFTTokRow where
  prompt : List Nat
  messages : List Nat
  deriving DecidableEq

/-- Field access `row[key]` on a tokenized preference record. -/
def PreferenceTokRow.getField (row : PreferenceTokRow) : String → List Nat
  | "prompt" => row.prompt
  | "chosen" => row.chosen
  | "rejected" => row.rejected
  | _ => []

/-- Field access `row[key]` on a tokenized fine-tuning record. -/
def SFTTokRow.getField (row : SFTTokRow) : String → List Nat
  | "prompt" => row.prompt
  | "messages" => row.messages
  | _ => []

/-- Embeds `PreferenceDatasetProcessor.tokenize`'s inner `tokenize_fn`:
`row["prompt"] = tokenizer.apply_chat_template(row["chosen"][:-1])` (the slice
`[:-1]` is `dropLast`), then `chosen` and `rejected` are overwritten with the
renderings of their full turn sequences (the `prompt` assignment does not
affect the `chosen` value read afterwards). -/
def PreferenceDatasetProcessor.tokenize_fn {α : Type}
    (apply_chat_template : List α → List Nat) (row : PreferenceRawRow α) :
    PreferenceTokRow :=
  { prompt := apply_chat_template row.chosen.dropLast
  , chosen := apply_chat_template row.chosen
  , rejected := apply_chat_template row.rejected }

/-- Embeds `PreferenceDatasetProcessor.tokenize`: `dataset.map(tokenize_fn, ...)`
(the `num_proc` and `load_from_cache_file` arguments affect scheduling and
caching only, not which rows are produced). -/
def PreferenceDatasetProcessor.tokenize {α : Type}
    (apply_chat_template : List α → List Nat) (dataset : List (PreferenceRawRow α)) :
    List PreferenceTokRow :=
  dataset.map (PreferenceDatasetProcessor.tokenize_fn apply_chat_template)

/-- Embeds `PreferenceDatasetProcessor.filter`'s inner `filter_fn` exactly as
Python parses it: `and` binds tighter than the conditional expression and the
conditional is right-associative, so the expression is an if/else chain
`A if mp set else ((True and B) if mt set else ((True and C) if mt set else True))`
with `A` the prompt bound, `B` the chosen bound and `C` the rejected bound;
the `C` branch is unreachable since it sits under `mt` being `None`. -/
def PreferenceDatasetProcessor.filter_fn (config : DatasetConfig)
    (row : PreferenceTokRow) : Bool :=
  match config.max_prompt_token_lenth with
  | some mp => decide (row.prompt.length ≤ mp)
  | none =>
    match config.max_token_length with
    | some mt => true && decide (row.chosen.length ≤ mt)
    | none =>
      match config.max_token_length with
      | some mt => true && decide (row.rejected.length ≤ mt)
      | none => true

/-- Embeds `PreferenceDatasetProcessor.filter`: `dataset.filter(filter_fn, ...)`. -/
def PreferenceDatasetProcessor.filter (config : DatasetConfig)
    (dataset : List PreferenceTokRow) : List PreferenceTokRow :=
  dataset.filter (PreferenceDatasetProcessor.filter_fn config)

/-- Embeds `SFTDatasetProcessor.tokenize`'s inner `tokenize_fn`. -/
def SFTDatasetProcessor.tokenize_fn {α : Type}
    (apply_chat_template : List α → List Nat) (row : SFTRawRow α) : SFTTokRow :=
  { prompt := apply_chat_template row.messages.dropLast
  , messages := apply_chat_template row.messages }

/-- Embeds `SFTDatasetProcessor.tokenize`. -/
def SFTDatasetProcessor.tokenize {α : Type}
    (apply_chat_template : List α → List Nat) (dataset : List (SFTRawRow α)) :
    List SFTTokRow :=
  dataset.map (SFTDatasetProcessor.tokenize_fn apply_chat_template)

/-- Embeds `SFTDatasetProcessor.filter`'s inner `filter_fn` exactly as Python
parses it: an if/else chain testing only the prompt bound when it is set, else
the messages bound when that is set, else keeping the record. -/
def SFTDatasetProcessor.filter_fn (config : DatasetConfig) (row : SFTTokRow) : Bool :=
  match config.max_prompt_token_lenth with
  | some mp => decide (row.prompt.length ≤ mp)
  | none =>
    match config.max_token_length with
    | some mt => true && decide (row.messages.length ≤ mt)
    | none => true

/-- Embeds `SFTDatasetProcessor.filter`: `dataset.filter(filter_fn, ...)`. -/
def SFTDatasetProcessor.filter (config : DatasetConfig) (dataset : List SFTTokRow) :
    List SFTTokRow :=
  dataset.filter (SFTDatasetProcessor.filter_fn config)

/-- The preference filter predicate as the SPEC words it (for the refinement
comparison): a record is kept iff every configured bound is satisfied —
`len(prompt) <= max_prompt_token_lenth` if set, AND `len(chosen) <=
max_token_length` if set, AND `len(rejected) <= max_token_length` if set, an
unset bound counting as satisfied. -/
def specKeepPreference (config : DatasetConfig) (row : PreferenceTokRow) : Bool :=
  (match config.max_prompt_token_lenth with
   | some mp => decide (row.prompt.length ≤ mp)
   | none => true) &&
  (match config.max_token_length with
   | some mt => decide (row.chosen.length ≤ mt)
   | none => true) &&
  (match config.max_token_length with
   | some mt => decide (row.rejected.length ≤ mt)
   | none => true)

/-- The fine-tuning filter predicate as the SPEC words it: keep iff
`len(prompt) <= max_prompt_token_lenth` (if set) AND `len(messages) <=
max_token_length` (if set). -/
def specKeepSFT (config : DatasetConfig) (row : SFTTokRow) : Bool :=
  (match config.max_prompt_token_lenth with
   | some mp => decide (row.prompt.length ≤ mp)
   | none => true) &&
  (match config.max_token_length with
   | some mt => decide (row.messages.length ≤ mt)
   | none => true)

/-- Helper: the preference filter predicate never inspects the `rejected`
field (its only occurrence sits in an unreachable branch of the if/else
chain). -/
theorem pref_filter_fn_ignores_rejected (config : DatasetConfig)
    (prompt chosen rejected₁ rejected₂ : List Nat) :
    PreferenceDatasetProcessor.filter_fn config ⟨prompt, chosen, rejected₁⟩ =
      PreferenceDatasetProcessor.filter_fn config ⟨prompt, chosen, rejected₂⟩ := by
  obtain ⟨mt, mp, b, c, n, nc⟩ := config
  cases mp <;> cases mt <;> rfl

/-- C1: the claim states both filters keep a record iff every configured bound
is satisfied (conjunction).  The code evaluates the expression as an if/else
chain instead: with `max_prompt_token_lenth = 10` and `max_token_length = 5`,
a preference record with `len(prompt) = 1` and `len(chosen) = 6` survives the
preference filter, and a fine-tuning record with `len(prompt) = 1` and
`len(messages) = 6` survives the fine-tuning filter, although both violate the
set `max_token_length` bound, contradicting the spec predicate. -/
theorem c1_filter_is_not_the_spec_conjunction :
    PreferenceDatasetProcessor.filter
        { max_token_length := some 5, max_prompt_token_lenth := some 10 }
        [{ prompt := [0], chosen := [0, 1, 2, 3, 4, 5], rejected := [0] }] =
      [{ prompt := [0], chosen := [0, 1, 2, 3, 4, 5], rejected := [0] }] ∧
    specKeepPreference
        { max_token_length := some 5, max_prompt_token_lenth := some 10 }
        { prompt := [0], chosen := [0, 1, 2, 3, 4, 5], rejected := [0] } = false ∧
    SFTDatasetProcessor.filter
        { max_token_length := some 5, max_prompt_token_lenth := some 10 }
        [{ prompt := [0], messages := [0, 1, 2, 3, 4, 5] }] =
      [{ prompt := [0], messages := [0, 1, 2, 3, 4, 5] }] ∧
    specKeepSFT
        { max_token_length := some 5, max_prompt_token_lenth := some 10 }
        { prompt := [0], messages := [0, 1, 2, 3, 4, 5] } = false :=
  ⟨rfl, rfl, rfl, rfl⟩

/-- C2: whenever `max_prompt_token_lenth` is set to some bound `mp`, both
filter predicates equal `decide (len(prompt) ≤ mp)`, an expression that does
not depend on `max_token_length` nor on the `chosen`, `rejected` or `messages`
fields. -/
theorem c2_prompt_bound_decides_alone (config : DatasetConfig) (mp : Nat)
    (h : config.max_prompt_token_lenth = some mp)
    (row : PreferenceTokRow) (srow : SFTTokRow) :
    PreferenceDatasetProcessor.filter_fn config row = decide (row.prompt.length ≤ mp) ∧
    SFTDatasetProcessor.filter_fn config srow = decide (srow.prompt.length ≤ mp) := by
  simp [PreferenceDatasetProcessor.filter_fn, SFTDatasetProcessor.filter_fn, h]

/-- Witness for C2 at a concrete configuration and records. -/
theorem c2_prompt_bound_decides_alone_witness :
    PreferenceDatasetProcessor.filter_fn
        { max_token_length := some 0, max_prompt_token_lenth := some 3 }
        { prompt := [9, 9], chosen := [1, 1, 1, 1], rejected := [] } =
      decide (([9, 9] : List Nat).length ≤ 3) ∧
    SFTDatasetProcessor.filter_fn
        { max_token_length := some 0, max_prompt_token_lenth := some 3 }
        { prompt := [9, 9], messages := [1, 1, 1, 1] } =
      decide (([9, 9] : List Nat).length ≤ 3) :=
  c2_prompt_bound_decides_alone _ 3 rfl _ _

/-- C3: when both bounds are unset, both filter predicates are constantly
`true` and both `filter` operations return the input dataset unchanged. -/
theorem c3_filter_identity_when_unbounded (config : DatasetConfig)
    (h1 : config.max_token_length = none) (h2 : config.max_prompt_token_lenth = none)
    (ds : List PreferenceTokRow) (ds2 : List SFTTokRow) :
    (∀ row, PreferenceDatasetProcessor.filter_fn config row = true) ∧
    (∀ srow, SFTDatasetProcessor.filter_fn config srow = true) ∧
    PreferenceDatasetProcessor.filter config ds = ds ∧
    SFTDatasetProcessor.filter config ds2 = ds2 := by
  have hp : ∀ row, PreferenceDatasetProcessor.filter_fn config row = true := by
    intro row
    simp [PreferenceDatasetProcessor.filter_fn, h1, h2]
  have hs : ∀ srow, SFTDatasetProcessor.filter_fn config srow = true := by
    intro srow
    simp [SFTDatasetProcessor.filter_fn, h1, h2]
  refine ⟨hp, hs, ?_, ?_⟩
  · exact List.filter_eq_self.mpr (fun a _ => hp a)
  · exact List.filter_eq_self.mpr (fun a _ => hs a)

/-- Witness for C3 at the default configuration and concrete datasets. -/
theorem c3_filter_identity_when_unbounded_witness :
    (∀ row, PreferenceDatasetProcessor.filter_fn {} row = true) ∧
    (∀ srow, SFTDatasetProcessor.filter_fn {} srow = true) ∧
    PreferenceDatasetProcessor.filter {}
        [{ prompt := [1], chosen := [2, 3], rejected := [4, 5, 6] }] =
      [{ prompt := [1], chosen := [2, 3], rejected := [4, 5, 6] }] ∧
    SFTDatasetProcessor.filter {} [{ prompt := [1], messages := [2, 3] }] =
      [{ prompt := [1], messages := [2, 3] }] :=
  c3_filter_identity_when_unbounded {} rfl rfl _ _

/-- C4: for every chat-template function and every input dataset, the record
produced at any index by `tokenize` has `prompt` equal to the rendering of all
turns but the last of the primary conversational field (`chosen` for the
preference variant, `messages` for the fine-tuning variant) of the input
record at the same index, and the primary fields (and `rejected`) overwritten
with the renderings of their full turn sequences. -/
theorem c4_tokenize_renders_fields {α : Type} (tmpl : List α → List Nat)
    (ds : List (PreferenceRawRow α)) (ds2 : List (SFTRawRow α)) (i : Nat) :
    (PreferenceDatasetProcessor.tokenize tmpl ds).get? i =
      (ds.get? i).map (fun row =>
        { prompt := tmpl row.chosen.dropLast
        , chosen := tmpl row.chosen
        , rejected := tmpl row.rejected }) ∧
    (SFTDatasetProcessor.tokenize tmpl ds2).get? i =
      (ds2.get? i).map (fun row =>
        { prompt := tmpl row.messages.dropLast
        , messages := tmpl row.messages }) := by
  constructor
  · simp only [PreferenceDatasetProcessor.tokenize, List.get?_map]
    cases ds.get? i <;> rfl
  · simp only [SFTDatasetProcessor.tokenize, List.get?_map]
    cases ds2.get? i <;> rfl

/-- C5: `tokenize` of either variant preserves the record count of the input
dataset. -/
theorem c5_tokenize_preserves_record_count {α : Type} (tmpl : List α → List Nat)
    (ds : List (PreferenceRawRow α)) (ds2 : List (SFTRawRow α)) :
    (PreferenceDatasetProcessor.tokenize tmpl ds).length = ds.length ∧
    (SFTDatasetProcessor.tokenize tmpl ds2).length = ds2.length := by
  constructor
  · simp [PreferenceDatasetProcessor.tokenize]
  · simp [SFTDatasetProcessor.tokenize]

/-- C10: the preference filter predicate gives the same verdict on any two
records that agree on `prompt` and `chosen`, whatever their `rejected` fields
and whatever the configuration: the length of `rejected` never influences
filtering. -/
theorem c10_rejected_never_influences_filtering (config : DatasetConfig)
    (prompt chosen rejected₁ rejected₂ : List Nat) :
    PreferenceDatasetProcessor.filter_fn config ⟨prompt, chosen, rejected₁⟩ =
      PreferenceDatasetProcessor.filter_fn config ⟨prompt, chosen, rejected₂⟩ :=
  pref_filter_fn_ignores_rejected config prompt chosen rejected₁ rejected₂

/-- Helper: folding `Nat.max` over a replicated list from the same value is the
identity. -/
theorem foldl_max_replicate (n L : Nat) : (List.replicate n L).foldl Nat.max L = L := by
  induction n with
  | zero => rfl
  | succ n ih => simpa [List.replicate_succ, Nat.max_self] using ih

/-- Helper: folding `Nat.min` over a replicated list from the same value is the
identity. -/
theorem foldl_min_replicate (n L : Nat) : (List.replicate n L).foldl Nat.min L = L := by
  induction n with
  | zero => rfl
  | succ n ih => simpa [List.replicate_succ, Nat.min_self] using ih

/-- Helper: on a non-empty dataset whose values at `key` all have length `L`,
the single-key statistics are `max = min = mean = L`. -/
theorem statsForKey_uniform {ρ : Type} (get : ρ → String → List Nat)
    (dataset : List ρ) (key : String) (L : Nat) (hne : dataset ≠ [])
    (h : ∀ row ∈ dataset, (get row key).length = L) :
    statsForKey get dataset key = .ok ⟨L, L, (L : ℚ)⟩ := by
  obtain ⟨x, xs, rfl⟩ := List.exists_cons_of_ne_nil hne
  have hlengths : ((x :: xs).map (fun row => get row key)).map List.length =
      List.replicate (xs.length + 1) L := by
    refine List.eq_replicate.mpr ⟨by simp, ?_⟩
    intro b hb
    simp only [List.map_map, List.mem_map, Function.comp] at hb
    obtain ⟨row, hrow, rfl⟩ := hb
    exact h row hrow
  have hmax : pyMax (List.replicate (xs.length + 1) L) = .ok L := by
    simp [List.replicate_succ, pyMax, foldl_max_replicate]
  have hmin : pyMin (List.replicate (xs.length + 1) L) = .ok L := by
    simp [List.replicate_succ, pyMin, foldl_min_replicate]
  have hcol : ((x :: xs).map (fun row => get row key)).length = xs.length + 1 := by
    simp
  have hdiv : pyTrueDiv (List.replicate (xs.length + 1) L).sum (xs.length + 1) =
      .ok (L : ℚ) := by
    have hsum : (List.replicate (xs.length + 1) L).sum = (xs.length + 1) * L := by
      simp [List.sum_replicate, smul_eq_mul]
    rw [hsum, pyTrueDiv]
    simp only [Nat.succ_ne_zero, if_false]
    congr 1
    have hnz2 : ((xs.length : ℚ) + 1) ≠ 0 := by positivity
    push_cast
    field_simp
  simp only [statsForKey, hlengths, hcol, hmax, hmin, hdiv]

/-- C6 counterexample: on the empty dataset with the non-empty feature list
`["prompt"]`, `get_token_length_stats` raises the empty-sequence `ValueError`
from `max`, which is not the division error the claim names. -/
theorem c6_counterexample_error_is_not_division :
    get_token_length_stats PreferenceTokRow.getField ([] : List PreferenceTokRow)
        ["prompt"] = .error PyError.valueErrorEmptySeq ∧
    (Except.error PyError.valueErrorEmptySeq :
        Except PyError (List (String × TokenLengthStatsEntry))) ≠
      .error PyError.zeroDivisionError := by
  refine ⟨rfl, fun h => ?_⟩
  injection h with h2
  exact PyError.noConfusion h2

/-- C6 amended: on an empty dataset with a non-empty feature list,
`get_token_length_stats` fails — it raises the empty-sequence error from
computing `max` over zero records (which the Python dict display evaluates
before the mean, so the division by zero is never reached); it does not
silently return zero or an empty statistics record. -/
theorem c6_empty_dataset_fails_with_empty_seq_error {ρ : Type}
    (get : ρ → String → List Nat) (key : String) (rest : List String) :
    get_token_length_stats get ([] : List ρ) (key :: rest) =
      .error PyError.valueErrorEmptySeq := rfl

/-- C7: on a non-empty dataset in which every record's value at every
requested field is a sequence of length `L`, `get_token_length_stats` returns
`max = min = mean = L` for every field. -/
theorem c7_uniform_length_stats {ρ : Type} (get : ρ → String → List Nat)
    (features : List String) (dataset : List ρ) (L : Nat)
    (hne : dataset ≠ [])
    (hlen : ∀ row ∈ dataset, ∀ key ∈ features, (get row key).length = L) :
    get_token_length_stats get dataset features =
      .ok (features.map (fun key => (key, ⟨L, L, (L : ℚ)⟩))) := by
  revert hlen
  induction features with
  | nil => intro _; rfl
  | cons key rest ih =>
    intro hlen
    have hkey : statsForKey get dataset key = .ok ⟨L, L, (L : ℚ)⟩ :=
      statsForKey_uniform get dataset key L hne
        (fun row hr => hlen row hr key (List.mem_cons_self key rest))
    have hrest : get_token_length_stats get dataset rest =
        .ok (rest.map (fun k => (k, ⟨L, L, (L : ℚ)⟩))) :=
      ih (fun row hr k hk => hlen row hr k (List.mem_cons_of_mem key hk))
    simp only [get_token_length_stats, hkey, hrest, List.map_cons]

/-- Witness for C7: a one-record preference dataset whose three fields all
have length two. -/
theorem c7_uniform_length_stats_witness :
    get_token_length_stats PreferenceTokRow.getField
        [{ prompt := [1, 2], chosen := [3, 4], rejected := [5, 6] }]
        ["prompt", "chosen", "rejected"] =
      .ok [("prompt", ⟨2, 2, (2 : ℚ)⟩), ("chosen", ⟨2, 2, (2 : ℚ)⟩),
           ("rejected", ⟨2, 2, (2 : ℚ)⟩)] :=
  c7_uniform_length_stats PreferenceTokRow.getField _ _ 2 (by decide) (by decide)

/-- C8: calling the base `filter` on a processor whose configuration is
missing returns the input dataset unchanged together with the skip warning,
and does not raise. -/
theorem c8_filter_without_config_is_warned_noop {ρ : Type}
    (self : DatasetProcessor) (h : self.config = none) (dataset : List ρ) :
    DatasetProcessor.filter self dataset =
      .ok ([Warning.noConfigSkipFilter], dataset) := by
  simp [DatasetProcessor.filter, h]

/-- Witness for C8 on a concrete processor and dataset. -/
theorem c8_filter_without_config_is_warned_noop_witness :
    DatasetProcessor.filter (⟨⟨none, none⟩, none⟩ : DatasetProcessor)
        ([0, 1] : List Nat) = .ok ([Warning.noConfigSkipFilter], [0, 1]) :=
  c8_filter_without_config_is_warned_noop _ rfl _

/-- C9: construction always returns a processor holding the given tokenizer
and configuration (it never fails), emits exactly the one pad/EOS warning iff
the pad-token identifier equals the end-of-sequence identifier, and emits no
warning iff they differ. -/
theorem c9_init_warns_iff_pad_equals_eos (tokenizer : Tokenizer)
    (config : Option DatasetConfig) :
    (DatasetProcessor.init tokenizer config).1 = ⟨tokenizer, config⟩ ∧
    ((DatasetProcessor.init tokenizer config).2 = [Warning.padEqualsEos] ↔
      tokenizer.pad_token_id = tokenizer.eos_token_id) ∧
    ((DatasetProcessor.init tokenizer config).2 = [] ↔
      tokenizer.pad_token_id ≠ tokenizer.eos_token_id) := by
  by_cases h : tokenizer.pad_token_id = tokenizer.eos_token_id <;>
    simp [DatasetProcessor.init, h]

/-- Witness for C9: equal identifiers yield exactly the one warning, distinct
identifiers yield none. -/
theorem c9_init_warns_iff_pad_equals_eos_witness :
    (DatasetProcessor.init ⟨some 7, some 7⟩ none).2 = [Warning.padEqualsEos] ∧
    (DatasetProcessor.init ⟨some 7, some 8⟩ none).2 = [] :=
  ⟨(c9_init_warns_iff_pad_equals_eos ⟨some 7, some 7⟩ none).2.1.mpr rfl,
   (c9_init_warns_iff_pad_equals_eos ⟨some 7, some 8⟩ none).2.2.mpr (by decide)⟩
